import Mathlib

/-!
Shallow embedding of `src/sagemaker_containers/_env.py`: path conventions,
configuration readers, host resource probes, and the three environment
snapshot types (base, training, serving).

Python strings are modelled as Lean `String`, JSON values as the inductive
`JsonVal` (numbers as `Int`; floats play no role in any property below),
`os.environ` as a total function `String → Option String`, and raising code
as `Except`-valued functions.  The string primitives used by the source
(`startswith`, `endswith`, slicing, `lower`, `strip`, `split`) are
re-implemented over character lists so that every definition evaluates
inside the kernel.
-/

set_option maxRecDepth 4000

/-- A JSON value as produced by the Python function `json.loads`: `None`, booleans,
numbers (restricted to integers here), strings, arrays and objects. -/
inductive JsonVal where
  | null : JsonVal
  | bool (b : Bool) : JsonVal
  | num (n : Int) : JsonVal
  | str (s : String) : JsonVal
  | arr (xs : List JsonVal) : JsonVal
  | obj (kvs : List (String × JsonVal)) : JsonVal

/-- Python `s.startswith(pre)` on character lists. -/
def strStartsWith (s p : String) : Bool :=
  p.data.isPrefixOf s.data

/-- Python `s.endswith(suf)` on character lists. -/
def strEndsWith (s suf : String) : Bool :=
  suf.data.reverse.isPrefixOf s.data.reverse

/-- Python slicing `s[:-n]`: all characters of `s` except the last `n`. -/
def strDropRight (s : String) (n : Nat) : String :=
  ⟨s.data.take (s.data.length - n)⟩

/-- Python `s.lower()` (ASCII case folding suffices for the values used). -/
def strToLower (s : String) : String :=
  ⟨s.data.map Char.toLower⟩

/-- The ASCII whitespace characters stripped by the Python `int()` parser. -/
def isPySpace (c : Char) : Bool :=
  c = ' ' || c = '\t' || c = '\n' || c = '\r' || c = '\x0b' || c = '\x0c'

/-- Python `s.strip()` restricted to ASCII whitespace. -/
def strStrip (s : String) : String :=
  ⟨((s.data.dropWhile isPySpace).reverse.dropWhile isPySpace).reverse⟩

/-- Helper for `strSplitNl`: split a character list at a separator char,
keeping empty segments, exactly like the Python method `str.split(sep)`. -/
def splitOnChar (c : Char) : List Char → List Char → List String
  | [], acc => [⟨acc.reverse⟩]
  | x :: xs, acc =>
    if x = c then ⟨acc.reverse⟩ :: splitOnChar c xs []
    else splitOnChar c xs (x :: acc)

/-- Python `output.split` at newline characters. -/
def strSplitNl (s : String) : List String := splitOnChar '\n' s.data []

/-- The Python `repr` function on JSON-decoded values (string escaping inside
containers is simplified; no property below depends on it). -/
def pyRepr (v : JsonVal) : String :=
  match v with
  | .null => "None"
  | .bool b => cond b "True" "False"
  | .num n => toString n
  | .str s => "\x27" ++ s ++ "\x27"
  | .arr xs => "[" ++ goList xs ++ "]"
  | .obj kvs => "\x7b" ++ goObj kvs ++ "\x7d"
where
  goList : List JsonVal → String
    | [] => ""
    | [x] => pyRepr x
    | x :: y :: xs => pyRepr x ++ ", " ++ goList (y :: xs)
  goObj : List (String × JsonVal) → String
    | [] => ""
    | [(k, x)] => "\x27" ++ k ++ "\x27: " ++ pyRepr x
    | (k, x) :: y :: xs => "\x27" ++ k ++ "\x27: " ++ pyRepr x ++ ", " ++ goObj (y :: xs)

/-- The Python `str()` function on JSON-decoded values: a `str` maps to itself, every
other value to its `repr`. -/
def pyStr (v : JsonVal) : String :=
  match v with
  | .str s => s
  | v => pyRepr v

/-- `os.path.join(a, b)` on POSIX, two components: an absolute second
component replaces the accumulated path. -/
def posixJoin (a b : String) : String :=
  if strStartsWith b "/" then b
  else if a = "" || strEndsWith a "/" then a ++ b
  else a ++ "/" ++ b

/-- The process environment: a total map from variable name to optional
value, standing for `os.environ`. -/
def EnvMap : Type := String → Option String

/-- `os.environ[k] = v`. -/
def setEnv (e : EnvMap) (k v : String) : EnvMap :=
  fun q => if q = k then some v else e q

/-! ### Parameter name registry

Modelled from the spec: the sibling `_params` module is not part of the
excerpt.  The spec only requires a catalogue of fixed, pairwise-distinct
environment-variable names and hyperparameter key names, plus the reserved
key set and the platform name prefix (the job-name key
`sagemaker_job_name` and the prefix convention are fixed by the splitting
example in the spec). -/

/-- Modelled from the spec: environment variable naming the current host. -/
def CURRENT_HOST_ENV : String := "CURRENT_HOST"

/-- Modelled from the spec: environment variable naming the user program. -/
def USER_PROGRAM_ENV : String := "SAGEMAKER_PROGRAM"

/-- Modelled from the spec: environment variable naming the submit directory. -/
def SUBMIT_DIR_ENV : String := "SAGEMAKER_SUBMIT_DIRECTORY"

/-- Modelled from the spec: environment variable naming the log level. -/
def LOG_LEVEL_ENV : String := "SAGEMAKER_CONTAINER_LOG_LEVEL"

/-- Modelled from the spec: environment variable naming the training job. -/
def JOB_NAME_ENV : String := "JOB_NAME"

/-- Modelled from the spec: environment variable naming the region. -/
def REGION_NAME_ENV : String := "SAGEMAKER_REGION"

/-- Modelled from the spec: environment variable naming the framework
training module. -/
def FRAMEWORK_TRAINING_MODULE_ENV : String := "SAGEMAKER_TRAINING_MODULE"

/-- Modelled from the spec: environment variable naming the framework
serving module. -/
def FRAMEWORK_SERVING_MODULE_ENV : String := "SAGEMAKER_SERVING_MODULE"

/-- Modelled from the spec: environment variable for the reverse-proxy flag. -/
def USE_NGINX_ENV : String := "SAGEMAKER_USE_NGINX"

/-- Modelled from the spec: environment variable for the model server timeout. -/
def MODEL_SERVER_TIMEOUT_ENV : String := "SAGEMAKER_MODEL_SERVER_TIMEOUT"

/-- Modelled from the spec: environment variable for the model server
worker count. -/
def MODEL_SERVER_WORKERS_ENV : String := "SAGEMAKER_MODEL_SERVER_WORKERS"

/-- Modelled from the spec: hyperparameter key for the region name. -/
def REGION_NAME_PARAM : String := "sagemaker_region"

/-- Modelled from the spec: hyperparameter key for the job name (literal
value fixed by the splitting example in the spec). -/
def JOB_NAME_PARAM : String := "sagemaker_job_name"

/-- Modelled from the spec: hyperparameter key for the user program. -/
def USER_PROGRAM_PARAM : String := "sagemaker_program"

/-- Modelled from the spec: hyperparameter key for the submit directory. -/
def SUBMIT_DIR_PARAM : String := "sagemaker_submit_directory"

/-- Modelled from the spec: hyperparameter key for the log level. -/
def LOG_LEVEL_PARAM : String := "sagemaker_container_log_level"

/-- Modelled from the spec: the platform name prefix used to classify
platform-internal hyperparameters (`SAGEMAKER_PREFIX` in the registry). -/
def SAGEMAKER_PREF : String := "sagemaker_"

/-- Modelled from the spec: the reserved platform hyperparameter key set. -/
def SAGEMAKER_HYPERPARAMETERS : List String :=
  [USER_PROGRAM_PARAM, SUBMIT_DIR_PARAM, LOG_LEVEL_PARAM, JOB_NAME_PARAM,
   REGION_NAME_PARAM]

/-! ### Path and file conventions (`_env.py` lines 27-81)

The module-level constants are computed from `os.environ` at load time, so
each one takes the process environment as an explicit argument. -/

/-- `base_dir = os.environ.get of "base_dir" with default os.path.join of "/opt" and "ml"`. -/
def base_dir (env0 : EnvMap) : String :=
  (env0 "base_dir").getD (posixJoin "/opt" "ml")

/-- `model_dir = os.path.join(base_dir, "model")`. -/
def model_dir (env0 : EnvMap) : String := posixJoin (base_dir env0) "model"

/-- `input_dir = os.path.join(base_dir, "input")`. -/
def input_dir (env0 : EnvMap) : String := posixJoin (base_dir env0) "input"

/-- `_input_data_dir = os.path.join(input_dir, "data")`. -/
def input_data_dir (env0 : EnvMap) : String :=
  posixJoin (input_dir env0) "data"

/-- `input_config_dir = os.path.join(input_dir, "config")`. -/
def input_config_dir (env0 : EnvMap) : String :=
  posixJoin (input_dir env0) "config"

/-- `output_dir = os.path.join(base_dir, "output")`. -/
def output_dir (env0 : EnvMap) : String := posixJoin (base_dir env0) "output"

/-- `_output_data_dir = os.path.join(output_dir, "data")`. -/
def output_data_dir_base (env0 : EnvMap) : String :=
  posixJoin (output_dir env0) "data"

/-- `channel_path(channel) = os.path.join(_input_data_dir, channel)`:
a pure function of the channel name. -/
def channel_path (env0 : EnvMap) (channel : String) : String :=
  posixJoin (input_data_dir env0) channel

/-! ### Configuration file readers -/

/-- Second-stage decoding of every hyperparameter value, mirroring the dict
comprehension `{k: json.loads(v) for k, v in hyperparameters.items()}`:
`some` of the decoded list when every value decodes, `none` as soon as any
value raises.  `decode` stands for `json.loads` on a single value. -/
def decodeAll (decode : String → Option JsonVal) :
    List (String × String) → Option (List (String × JsonVal))
  | [] => some []
  | (k, v) :: rest =>
    match decode v, decodeAll decode rest with
    | some j, some tl => some ((k, j) :: tl)
    | _, _ => none

/-- `read_hyperparameters` (lines 97-112) applied to already-parsed file
content: try to second-decode every value; on any `ValueError`/`TypeError`
the whole original mapping is returned with its raw string values. -/
def read_hyperparameters (decode : String → Option JsonVal)
    (hyperparameters : List (String × String)) : List (String × JsonVal) :=
  match decodeAll decode hyperparameters with
  | some decoded => decoded
  | none => hyperparameters.map (fun kv => (kv.1, JsonVal.str kv.2))

/-! ### Host resource probes -/

/-- Outcome of invoking `nvidia-smi --list-gpus`: either its captured
standard output, or failure (`OSError` when the tool is absent,
`CalledProcessError` when it exits non-zero). -/
inductive ToolResult where
  | ok (output : String) : ToolResult
  | failed : ToolResult

/-- `num_gpus` (lines 178-190): on success, `sum([1 for x in
output.split at newline if x.startswith("GPU ")])`; on failure, `0`. -/
def num_gpus : ToolResult → Nat
  | .ok output =>
    ((strSplitNl output).map (fun x => if strStartsWith x "GPU " then 1 else 0)).sum
  | .failed => 0

/-! ### Mapping capability -/

/-- Modelled from the spec: result of the `_mapping` split utility. -/
structure SplitResult (α : Type) where
  included : List (String × α)
  excluded : List (String × α)

/-- Modelled from the spec: the inclusion criterion of the `_mapping`
split — key in the explicit key set, or key starting with the name prefix
(either match suffices). -/
def keyIncluded (keys : List String) (p : String) (k : String) : Bool :=
  keys.contains k || strStartsWith k p

/-- Modelled from the spec: `_mapping.split_by_criteria` — partition a
mapping into the entries matching the criterion and all others. -/
def split_by_criteria (dictionary : List (String × α)) (keys : List String)
    (p : String) : SplitResult α :=
  { included := dictionary.filter (fun kv => keyIncluded keys p kv.1)
    excluded := dictionary.filter (fun kv => !keyIncluded keys p kv.1) }

/-! ### Base environment snapshot (`_Env.__init__`, lines 215-227) -/

/-- A Python value that is either a string (from `os.environ`) or the
integer `logging.INFO` default. -/
inductive StrOrInt where
  | str (s : String) : StrOrInt
  | int (n : Int) : StrOrInt

/-- The base snapshot: the `_Env` attributes frozen at construction. -/
structure BaseEnv where
  current_host : Option String
  num_gpus : Nat
  num_cpus : Nat
  module_name_raw : Option String
  module_dir : Option String
  log_level : StrOrInt
  model_dir : String

/-- `_Env.__init__`: read the environment variables once and freeze them,
together with the GPU and CPU probes (`ncpus` stands for
`multiprocessing.cpu_count()`, which never fails). -/
def baseEnvInit (env0 : EnvMap) (ncpus : Nat) (gpu : ToolResult) : BaseEnv :=
  { current_host := env0 CURRENT_HOST_ENV
    num_gpus := num_gpus gpu
    num_cpus := ncpus
    module_name_raw := env0 USER_PROGRAM_ENV
    module_dir := env0 SUBMIT_DIR_ENV
    log_level := match env0 LOG_LEVEL_ENV with
      | some s => .str s
      | none => .int 20
    model_dir := model_dir env0 }

/-- `_Env._parse_module_name` (lines 283-294): strip a trailing `.py`
from a truthy program parameter, otherwise return it unchanged. -/
def parse_module_name : Option String → Option String
  | none => none
  | some p => if !(p = "") && strEndsWith p ".py" then some (strDropRight p 3) else some p

/-- The `module_name` property of the base snapshot. -/
def BaseEnv.module_name (e : BaseEnv) : Option String :=
  parse_module_name e.module_name_raw

/-! ### Training environment snapshot (`TrainingEnv.__init__`, lines 412-449) -/

/-- A Python value that is either a JSON value (from the platform
hyperparameters) or the integer `logging.INFO` default. -/
inductive JsonOrInt where
  | json (j : JsonVal) : JsonOrInt
  | int (n : Int) : JsonOrInt

/-- The training snapshot: every attribute frozen by a successful
`TrainingEnv.__init__`. -/
structure TrainingEnv where
  current_host : String
  num_gpus : Nat
  num_cpus : Nat
  module_name_raw : String
  module_dir : String
  log_level : JsonOrInt
  model_dir : String
  hosts : JsonVal
  network_interface_name : JsonVal
  hyperparameters : List (String × JsonVal)
  resource_config : List (String × JsonVal)
  input_data_config : List (String × JsonVal)
  output_data_dir : String
  channel_input_dirs : List (String × String)
  framework_module : Option String
  input_dir : String
  input_config_dir : String
  output_dir : String

/-- The ways `TrainingEnv.__init__` can raise: a `KeyError` on a missing
required key, or a `TypeError` when a non-string value reaches an
`os.environ` assignment. -/
inductive InitErr where
  | keyError (key : String) : InitErr
  | typeError : InitErr
deriving DecidableEq

/-- `TrainingEnv.__init__`: the three configuration mappings stand for the
argument (or the parsed file contents when the argument is absent).  The
returned environment map is the state of `os.environ` when the constructor
returns or raises; the source performs its three `os.environ` writes
(lines 428-430) before it looks up the user-program and submit-directory
keys (lines 442-443), and this ordering is preserved. -/
def trainingEnvInit (env0 : EnvMap) (ncpus : Nat) (gpu : ToolResult)
    (resource_config : List (String × JsonVal))
    (input_data_config : List (String × JsonVal))
    (all_hyperparameters : List (String × JsonVal)) :
    Except InitErr TrainingEnv × EnvMap :=
  let base := baseEnvInit env0 ncpus gpu
  match List.lookup "current_host" resource_config with
  | none => (.error (.keyError "current_host"), env0)
  | some current_host_v =>
    match List.lookup "hosts" resource_config with
    | none => (.error (.keyError "hosts"), env0)
    | some hosts_v =>
      let network_interface_name :=
        (List.lookup "network_interface_name" resource_config).getD (.str "ethwe")
      let split_result :=
        split_by_criteria all_hyperparameters SAGEMAKER_HYPERPARAMETERS SAGEMAKER_PREF
      let shp := split_result.included
      match List.lookup REGION_NAME_PARAM shp with
      | none => (.error (.keyError REGION_NAME_PARAM), env0)
      | some region_v =>
        match List.lookup JOB_NAME_PARAM shp with
        | none => (.error (.keyError JOB_NAME_PARAM), env0)
        | some job_v =>
          match job_v with
          | .str job_s =>
            let env1 := setEnv env0 JOB_NAME_ENV job_s
            match current_host_v with
            | .str current_host =>
              let env2 := setEnv env1 CURRENT_HOST_ENV current_host
              match region_v with
              | .str region_s =>
                let env3 := setEnv env2 REGION_NAME_ENV region_s
                match List.lookup USER_PROGRAM_PARAM shp with
                | none => (.error (.keyError USER_PROGRAM_PARAM), env3)
                | some user_program_v =>
                  match List.lookup SUBMIT_DIR_PARAM shp with
                  | none => (.error (.keyError SUBMIT_DIR_PARAM), env3)
                  | some submit_dir_v =>
                    (.ok { current_host := current_host
                           num_gpus := base.num_gpus
                           num_cpus := base.num_cpus
                           module_name_raw := pyStr user_program_v
                           module_dir := pyStr submit_dir_v
                           log_level := match List.lookup LOG_LEVEL_PARAM shp with
                             | some v => .json v
                             | none => .int 20
                           model_dir := base.model_dir
                           hosts := hosts_v
                           network_interface_name := network_interface_name
                           hyperparameters := split_result.excluded
                           resource_config := resource_config
                           input_data_config := input_data_config
                           output_data_dir :=
                             posixJoin (output_data_dir_base env0) current_host
                           channel_input_dirs :=
                             input_data_config.map (fun kv => (kv.1, channel_path env0 kv.1))
                           framework_module := env0 FRAMEWORK_TRAINING_MODULE_ENV
                           input_dir := input_dir env0
                           input_config_dir := input_config_dir env0
                           output_dir := output_dir env0 }, env3)
              | _ => (.error .typeError, env2)
            | _ => (.error .typeError, env1)
          | _ => (.error .typeError, env0)

/-! ### Serving environment snapshot (`ServingEnv.__init__`, lines 616-627) -/

/-- `distutils.util.strtobool`: `some 1` on a truthy literal, `some 0` on a
falsy literal (after lowering), `none` for the `ValueError` case. -/
def strtobool (val : String) : Option Nat :=
  let v := strToLower val
  if v = "y" || v = "yes" || v = "t" || v = "true" || v = "on" || v = "1" then some 1
  else if v = "n" || v = "no" || v = "f" || v = "false" || v = "off" || v = "0" then some 0
  else none

/-- The digit body accepted by the Python 3 `int(str)` parser: nonempty, decimal
digits with single underscores strictly between digits. -/
def pyIntDigits (ds : List Char) : Bool :=
  match ds with
  | [] => false
  | _ =>
    ds.all (fun c => c.isDigit || c = '_') &&
    (ds.head?.all Char.isDigit) && (ds.getLast?.all Char.isDigit) &&
    ((ds.zip ds.tail).all (fun q => !(q.1 = '_' && q.2 = '_')))

/-- Numeric value of a digit body, skipping underscores. -/
def digitsVal (ds : List Char) : Nat :=
  ds.foldl (fun acc c => if c = '_' then acc else acc * 10 + (c.toNat - 48)) 0

/-- Python `int(s)` on a string (ASCII digits): `none` for the
`ValueError` case. -/
def pyIntParse (s : String) : Option Int :=
  match (strStrip s).data with
  | [] => none
  | c :: rest =>
    let body := if c = '-' || c = '+' then rest else c :: rest
    let sign : Int := if c = '-' then -1 else 1
    if pyIntDigits body then some (sign * (digitsVal body : Int)) else none

/-- The serving snapshot: the `ServingEnv` attributes frozen at
construction, over the inherited base attributes. -/
structure ServingEnv where
  current_host : Option String
  num_gpus : Nat
  num_cpus : Nat
  module_name_raw : Option String
  module_dir : Option String
  log_level : StrOrInt
  model_dir : String
  use_nginx : Bool
  model_server_timeout : Int
  model_server_workers : Int
  framework_module : Option String

/-- The `ValueError` raised by `strtobool` or `int` on a malformed value. -/
inductive PyValueError where
  | valueError : PyValueError
deriving DecidableEq

/-- `ServingEnv.__init__`: parse the four serving environment variables.
A present but unparsable boolean or integer raises `ValueError`; only an
absent variable uses the default (`"true"`, `"60"`, `num_cpus()`). -/
def servingEnvInit (env0 : EnvMap) (ncpus : Nat) (gpu : ToolResult) :
    Except PyValueError ServingEnv :=
  let base := baseEnvInit env0 ncpus gpu
  match strtobool ((env0 USE_NGINX_ENV).getD "true") with
  | none => .error .valueError
  | some nb =>
    match pyIntParse ((env0 MODEL_SERVER_TIMEOUT_ENV).getD "60") with
    | none => .error .valueError
    | some t =>
      match (match env0 MODEL_SERVER_WORKERS_ENV with
             | some w => pyIntParse w
             | none => some (ncpus : Int)) with
      | none => .error .valueError
      | some w =>
        .ok { current_host := base.current_host
              num_gpus := base.num_gpus
              num_cpus := base.num_cpus
              module_name_raw := base.module_name_raw
              module_dir := base.module_dir
              log_level := base.log_level
              model_dir := base.model_dir
              use_nginx := nb == 1
              model_server_timeout := t
              model_server_workers := w
              framework_module := env0 FRAMEWORK_SERVING_MODULE_ENV }

/-! ### Concrete inputs used by witnesses and counterexamples -/

/-- The empty process environment. -/
def emptyEnv : EnvMap := fun _ => none

/-- A decoder agreeing with `json.loads` on the strings it is applied to:
`"1"` is valid JSON for the number 1, `"not json"` is not valid JSON. -/
def toyDecode : String → Option JsonVal :=
  fun s => if s = "1" then some (.num 1) else none

/-- A well-formed resource config. -/
def rcFull : List (String × JsonVal) :=
  [("current_host", .str "algo-1"), ("hosts", .arr [.str "algo-1", .str "algo-2"])]

/-- A hyperparameters mapping containing every required platform key. -/
def hpFull : List (String × JsonVal) :=
  [("sagemaker_region", .str "us-west-2"), ("sagemaker_job_name", .str "job"),
   ("sagemaker_program", .str "train.py"),
   ("sagemaker_submit_directory", .str "/opt/ml/code"), ("lr", .num 1)]

/-- A hyperparameters mapping with region and job name but no user
program. -/
def hpNoProgram : List (String × JsonVal) :=
  [("sagemaker_region", .str "us-west-2"), ("sagemaker_job_name", .str "job")]

/-- Projection of a training construction outcome onto its error, if any. -/
def initErrOf (r : Except InitErr TrainingEnv × EnvMap) : Option InitErr :=
  match r.1 with
  | .error e => some e
  | .ok _ => none

/-- Projection of a training construction outcome onto the channel map of
the snapshot, if one was produced. -/
def channelDirsOf (r : Except InitErr TrainingEnv × EnvMap) :
    Option (List (String × String)) :=
  match r.1 with
  | .ok te => some te.channel_input_dirs
  | .error _ => none

/-- Projection of a training construction outcome onto the pair of current
host and per-host output data directory, if a snapshot was produced. -/
def hostAndOutputOf (r : Except InitErr TrainingEnv × EnvMap) :
    Option (String × String) :=
  match r.1 with
  | .ok te => some (te.current_host, te.output_data_dir)
  | .error _ => none

/-- An environment whose model-server timeout variable holds a
non-integer string. -/
def badTimeoutEnv : EnvMap :=
  fun k => if k = MODEL_SERVER_TIMEOUT_ENV then some "sixty" else none

/-- An environment that sets the current-host variable (and nothing else). -/
def hostOnlyEnv : EnvMap :=
  fun k => if k = CURRENT_HOST_ENV then some "env-host" else none

/-- A resource config whose current host begins with a path separator. -/
def rcSlashHost : List (String × JsonVal) :=
  [("current_host", .str "/h"), ("hosts", .arr [.str "/h"])]

/-- A resource config with a current host but no host list. -/
def rcNoHosts : List (String × JsonVal) :=
  [("current_host", .str "algo-1")]

/-! ## Theorems -/

theorem decodeAll_of_all (decode : String → Option JsonVal)
    (hp : List (String × String)) (h : ∀ q ∈ hp, (decode q.2).isSome) :
    decodeAll decode hp
      = some (hp.map (fun kv => (kv.1, (decode kv.2).getD (JsonVal.str kv.2)))) := by
  induction hp with
  | nil => rfl
  | cons kv rest ih =>
    rcases kv with ⟨k, v⟩
    obtain ⟨j, hj⟩ := Option.isSome_iff_exists.mp (h (k, v) (List.mem_cons_self _ _))
    have hrest := ih (fun q hq => h q (List.mem_cons_of_mem _ hq))
    simp [decodeAll, hj, hrest]

theorem decodeAll_of_ex (decode : String → Option JsonVal)
    (hp : List (String × String)) (h : ∃ q ∈ hp, decode q.2 = none) :
    decodeAll decode hp = none := by
  induction hp with
  | nil => simp at h
  | cons kv rest ih =>
    rcases kv with ⟨k, v⟩
    rcases h with ⟨q, hmem, hnone⟩
    rcases List.mem_cons.mp hmem with h1 | h2
    · subst h1
      simp only at hnone
      simp [decodeAll, hnone]
    · have hrest := ih ⟨q, h2, hnone⟩
      cases hv : decode v <;> simp [decodeAll, hv, hrest]

/-- C1 (amended): second-stage hyperparameter decoding is all-or-nothing,
not per-value.  If every value is valid JSON, each value is replaced by
its decoded form; if any single value fails to decode, the entire original
mapping is returned with every value kept as its raw string; the call
never raises either way. -/
theorem c1_read_hyperparameters_second_decode (decode : String → Option JsonVal)
    (hp : List (String × String)) :
    ((∀ q ∈ hp, (decode q.2).isSome) →
      read_hyperparameters decode hp
        = hp.map (fun kv => (kv.1, (decode kv.2).getD (JsonVal.str kv.2)))) ∧
    ((∃ q ∈ hp, decode q.2 = none) →
      read_hyperparameters decode hp
        = hp.map (fun kv => (kv.1, JsonVal.str kv.2))) := by
  constructor
  · intro h
    simp [read_hyperparameters, decodeAll_of_all decode hp h]
  · intro h
    simp [read_hyperparameters, decodeAll_of_ex decode hp h]

/-- Witness for C1: both branches of the amended claim at concrete
inputs (`toyDecode` agrees with `json.loads` on the values involved). -/
theorem c1_witness :
    read_hyperparameters toyDecode [("a", "1")] = [("a", JsonVal.num 1)] ∧
    read_hyperparameters toyDecode [("a", "1"), ("b", "not json")]
      = [("a", JsonVal.str "1"), ("b", JsonVal.str "not json")] := by
  constructor
  · exact ((c1_read_hyperparameters_second_decode toyDecode [("a", "1")]).1
      (by decide)).trans rfl
  · exact ((c1_read_hyperparameters_second_decode toyDecode
      [("a", "1"), ("b", "not json")]).2
      ⟨("b", "not json"), by simp, rfl⟩).trans rfl

/-- Counterexample for C1 as stated: on the mixed input
`{"a": "1", "b": "not json"}` the value of `"a"` is valid JSON for the
number 1, yet the result keeps the raw string `"1"` (the whole-mapping
fallback), not the decoded number the claim predicts. -/
theorem c1_counterexample :
    toyDecode "1" = some (JsonVal.num 1) ∧
    List.lookup "a" (read_hyperparameters toyDecode [("a", "1"), ("b", "not json")])
      = some (JsonVal.str "1") ∧
    (JsonVal.str "1" = JsonVal.num 1 → False) :=
  ⟨rfl, rfl, fun hc => JsonVal.noConfusion hc⟩

theorem sum_map_ite_one (p : String → Bool) (l : List String) :
    (l.map (fun x => if p x then 1 else 0)).sum = (l.filter p).length := by
  induction l with
  | nil => rfl
  | cons x xs ih => by_cases hx : p x <;> simp [hx, ih, List.filter_cons, Nat.add_comm]

/-- C7: on a successful invocation of the external listing tool, the GPU
probe returns the number of output lines beginning with `GPU `; when the
tool is absent or exits non-zero, it returns 0 and raises nothing (it is
a total function into `Nat`). -/
theorem c7_num_gpus :
    (∀ out, num_gpus (.ok out)
      = ((strSplitNl out).filter (fun x => strStartsWith x "GPU ")).length) ∧
    num_gpus .failed = 0 := by
  refine ⟨fun out => ?_, rfl⟩
  simpa [num_gpus] using sum_map_ite_one (fun x => strStartsWith x "GPU ") (strSplitNl out)

/-- Witness for C7 at concrete tool outcomes. -/
theorem c7_witness :
    num_gpus (.ok "GPU 0: A\nGPU 1: B\nsomething else") = 2 ∧ num_gpus .failed = 0 :=
  ⟨(c7_num_gpus.1 "GPU 0: A\nGPU 1: B\nsomething else").trans (by decide), c7_num_gpus.2⟩

/-- C9: the derived module name strips exactly the 3-character `.py`
suffix when present, returns the raw value unchanged otherwise, and is
absent when the program parameter is absent; the `module_name` property of
the base snapshot is this derivation applied to the user-program
environment variable. -/
theorem c9_module_name (env0 : EnvMap) (n : Nat) (g : ToolResult) :
    ((baseEnvInit env0 n g).module_name = parse_module_name (env0 USER_PROGRAM_ENV)) ∧
    (∀ s, strEndsWith s ".py" = true → parse_module_name (some s) = some (strDropRight s 3)) ∧
    (∀ s, strEndsWith s ".py" = false → parse_module_name (some s) = some s) ∧
    parse_module_name none = none := by
  refine ⟨rfl, fun s hs => ?_, fun s hs => ?_, rfl⟩
  · have hne : ¬(s = "") := by
      intro he
      subst he
      exact absurd hs (by decide)
    simp [parse_module_name, hs, hne]
  · simp [parse_module_name, hs]

/-- Witness for C9: `"train.py"` maps to `"train"`, `"train"` is
unchanged, an absent parameter stays absent. -/
theorem c9_witness :
    parse_module_name (some "train.py") = some "train" ∧
    parse_module_name (some "train") = some "train" ∧
    parse_module_name none = none :=
  ⟨((c9_module_name emptyEnv 1 .failed).2.1 "train.py" (by decide)).trans (by decide),
   (c9_module_name emptyEnv 1 .failed).2.2.1 "train" (by decide),
   (c9_module_name emptyEnv 1 .failed).2.2.2⟩

/-- C5: if the reverse-proxy, timeout, or worker-count environment
variable is present but its value is not a parsable boolean
(respectively integer), serving snapshot construction fails with the
`ValueError`; a present-but-invalid value never falls back to a
default. -/
theorem c5_serving_malformed (env0 : EnvMap) (n : Nat) (g : ToolResult) :
    ((∃ v, env0 USE_NGINX_ENV = some v ∧ strtobool v = none) ∨
     (∃ v, env0 MODEL_SERVER_TIMEOUT_ENV = some v ∧ pyIntParse v = none) ∨
     (∃ v, env0 MODEL_SERVER_WORKERS_ENV = some v ∧ pyIntParse v = none)) →
    servingEnvInit env0 n g = .error .valueError := by
  intro h
  unfold servingEnvInit
  rcases h with ⟨v, hv, hq⟩ | ⟨v, hv, hq⟩ | ⟨v, hv, hq⟩
  · simp [hv, hq]
  · rcases hng : strtobool ((env0 USE_NGINX_ENV).getD "true") with _ | nb
    · simp
    · simp [hv, hq]
  · rcases hng : strtobool ((env0 USE_NGINX_ENV).getD "true") with _ | nb
    · simp
    · rcases ht : pyIntParse ((env0 MODEL_SERVER_TIMEOUT_ENV).getD "60") with _ | t
      · simp
      · simp [hv, hq]

/-- Witness for C5: a non-integer timeout value makes construction fail. -/
theorem c5_witness : servingEnvInit badTimeoutEnv 4 .failed = .error .valueError :=
  c5_serving_malformed badTimeoutEnv 4 .failed (Or.inr (Or.inl ⟨"sixty", rfl, rfl⟩))

/-- C6: with none of the serving environment variables set, the serving
snapshot has `use_nginx = true`, `model_server_timeout = 60`,
`model_server_workers` equal to the reported CPU count, and no framework
module. -/
theorem c6_serving_defaults (env0 : EnvMap) (n : Nat) (g : ToolResult)
    (h1 : env0 USE_NGINX_ENV = none) (h2 : env0 MODEL_SERVER_TIMEOUT_ENV = none)
    (h3 : env0 MODEL_SERVER_WORKERS_ENV = none)
    (h4 : env0 FRAMEWORK_SERVING_MODULE_ENV = none) :
    ∃ se, servingEnvInit env0 n g = .ok se ∧ se.use_nginx = true ∧
      se.model_server_timeout = 60 ∧ se.model_server_workers = (n : Int) ∧
      se.framework_module = none := by
  unfold servingEnvInit
  rw [h1, h2, h3, h4]
  exact ⟨_, rfl, rfl, rfl, rfl, rfl⟩

/-- Witness for C6 on the empty environment with 8 reported CPUs. -/
theorem c6_witness :
    ∃ se, servingEnvInit emptyEnv 8 .failed = .ok se ∧ se.use_nginx = true ∧
      se.model_server_timeout = 60 ∧ se.model_server_workers = (8 : Int) ∧
      se.framework_module = none :=
  c6_serving_defaults emptyEnv 8 .failed rfl rfl rfl rfl

theorem trainingEnvInit_ok_spec (env0 : EnvMap) (n : Nat) (g : ToolResult)
    (rc idc hp : List (String × JsonVal)) (te : TrainingEnv) (envF : EnvMap)
    (h : trainingEnvInit env0 n g rc idc hp = (.ok te, envF)) :
    ∃ chs js rs,
      List.lookup "current_host" rc = some (.str chs) ∧
      List.lookup JOB_NAME_PARAM
        (split_by_criteria hp SAGEMAKER_HYPERPARAMETERS SAGEMAKER_PREF).included
        = some (.str js) ∧
      List.lookup REGION_NAME_PARAM
        (split_by_criteria hp SAGEMAKER_HYPERPARAMETERS SAGEMAKER_PREF).included
        = some (.str rs) ∧
      te.current_host = chs ∧
      te.hyperparameters
        = (split_by_criteria hp SAGEMAKER_HYPERPARAMETERS SAGEMAKER_PREF).excluded ∧
      te.output_data_dir = posixJoin (output_data_dir_base env0) chs ∧
      te.channel_input_dirs = idc.map (fun kv => (kv.1, channel_path env0 kv.1)) ∧
      envF = setEnv (setEnv (setEnv env0 JOB_NAME_ENV js) CURRENT_HOST_ENV chs)
        REGION_NAME_ENV rs := by
  simp only [trainingEnvInit] at h
  split at h
  · simp at h
  next current_host_v heq1 =>
    split at h
    · simp at h
    next hosts_v heq2 =>
      split at h
      · simp at h
      next region_v heq3 =>
        split at h
        · simp at h
        next job_v heq4 =>
          split at h
          next job_s =>
            split at h
            next current_host =>
              split at h
              next region_s =>
                split at h
                · simp at h
                next user_program_v heq8 =>
                  split at h
                  · simp at h
                  next submit_dir_v heq9 =>
                    rw [Prod.mk.injEq] at h
                    obtain ⟨h1, h2⟩ := h
                    rw [Except.ok.injEq] at h1
                    subst h1
                    subst h2
                    exact ⟨current_host, job_s, region_s, heq1, heq4, heq3,
                      rfl, rfl, rfl, rfl, rfl⟩
              next hne =>
                simp at h
            next hne =>
              simp at h
          next hne =>
            simp at h

theorem strings_append_data (a b : String) : (a ++ b).data = a.data ++ b.data := by
  rcases a with ⟨xs⟩
  rcases b with ⟨ys⟩
  rfl

theorem endsWith_append_data (s : String) : strEndsWith (s ++ "data") "/" = false := by
  unfold strEndsWith
  rw [strings_append_data, show ("data" : String).data = ['d', 'a', 't', 'a'] from rfl,
    List.reverse_append]
  rfl

theorem append_data_ne_empty (s : String) : ¬(s ++ "data" = "") := by
  intro he
  have hd := congrArg String.data he
  rw [strings_append_data] at hd
  simp at hd

theorem posixJoin_textual (a b : String) (hb : strStartsWith b "/" = false)
    (ha1 : ¬(a = "")) (ha2 : strEndsWith a "/" = false) :
    posixJoin a b = a ++ "/" ++ b := by
  unfold posixJoin
  rw [hb, ha2]
  simp [ha1]

theorem dataDir_ok (x : String) :
    ¬(posixJoin x "data" = "") ∧ strEndsWith (posixJoin x "data") "/" = false := by
  have hsw : strStartsWith "data" "/" = false := by decide
  unfold posixJoin
  rw [hsw, if_neg Bool.false_ne_true]
  split
  · exact ⟨append_data_ne_empty x, endsWith_append_data x⟩
  · exact ⟨append_data_ne_empty (x ++ "/"), endsWith_append_data (x ++ "/")⟩

theorem channel_path_textual (env0 : EnvMap) (c : String)
    (hc : strStartsWith c "/" = false) :
    channel_path env0 c = input_data_dir env0 ++ "/" ++ c :=
  posixJoin_textual _ _ hc (dataDir_ok (input_dir env0)).1 (dataDir_ok (input_dir env0)).2

theorem output_data_dir_textual (env0 : EnvMap) (c : String)
    (hc : strStartsWith c "/" = false) :
    posixJoin (output_data_dir_base env0) c = output_data_dir_base env0 ++ "/" ++ c :=
  posixJoin_textual _ _ hc (dataDir_ok (output_dir env0)).1 (dataDir_ok (output_dir env0)).2

/-- C2 (amended): every missing required key (resource-config
`current_host`/`hosts`, platform region/job/user-program/submit-directory
hyperparameters) makes training construction fail with a `KeyError` for
that key and no snapshot is produced.  When the missing key is one of
`current_host`, `hosts`, the region name or the job name, the process
environment is untouched; when the missing key is the user program or the
submit directory, the three environment variables (job name, current
host, region name) have already been written before the failure, so the
failed construction is not free of observable effects in those two
cases. -/
theorem c2_missing_key_all_or_nothing (env0 : EnvMap) (n : Nat) (g : ToolResult)
    (rc idc hp : List (String × JsonVal)) :
    (List.lookup "current_host" rc = none →
      trainingEnvInit env0 n g rc idc hp = (.error (.keyError "current_host"), env0)) ∧
    (∀ v, List.lookup "current_host" rc = some v →
      List.lookup "hosts" rc = none →
      trainingEnvInit env0 n g rc idc hp = (.error (.keyError "hosts"), env0)) ∧
    (∀ v w, List.lookup "current_host" rc = some v →
      List.lookup "hosts" rc = some w →
      List.lookup REGION_NAME_PARAM
        (split_by_criteria hp SAGEMAKER_HYPERPARAMETERS SAGEMAKER_PREF).included = none →
      trainingEnvInit env0 n g rc idc hp
        = (.error (.keyError REGION_NAME_PARAM), env0)) ∧
    (∀ v w r, List.lookup "current_host" rc = some v →
      List.lookup "hosts" rc = some w →
      List.lookup REGION_NAME_PARAM
        (split_by_criteria hp SAGEMAKER_HYPERPARAMETERS SAGEMAKER_PREF).included = some r →
      List.lookup JOB_NAME_PARAM
        (split_by_criteria hp SAGEMAKER_HYPERPARAMETERS SAGEMAKER_PREF).included = none →
      trainingEnvInit env0 n g rc idc hp = (.error (.keyError JOB_NAME_PARAM), env0)) ∧
    (∀ chs w rs js, List.lookup "current_host" rc = some (.str chs) →
      List.lookup "hosts" rc = some w →
      List.lookup REGION_NAME_PARAM
        (split_by_criteria hp SAGEMAKER_HYPERPARAMETERS SAGEMAKER_PREF).included
        = some (.str rs) →
      List.lookup JOB_NAME_PARAM
        (split_by_criteria hp SAGEMAKER_HYPERPARAMETERS SAGEMAKER_PREF).included
        = some (.str js) →
      List.lookup USER_PROGRAM_PARAM
        (split_by_criteria hp SAGEMAKER_HYPERPARAMETERS SAGEMAKER_PREF).included = none →
      trainingEnvInit env0 n g rc idc hp
        = (.error (.keyError USER_PROGRAM_PARAM),
           setEnv (setEnv (setEnv env0 JOB_NAME_ENV js) CURRENT_HOST_ENV chs)
             REGION_NAME_ENV rs)) ∧
    (∀ chs w rs js u, List.lookup "current_host" rc = some (.str chs) →
      List.lookup "hosts" rc = some w →
      List.lookup REGION_NAME_PARAM
        (split_by_criteria hp SAGEMAKER_HYPERPARAMETERS SAGEMAKER_PREF).included
        = some (.str rs) →
      List.lookup JOB_NAME_PARAM
        (split_by_criteria hp SAGEMAKER_HYPERPARAMETERS SAGEMAKER_PREF).included
        = some (.str js) →
      List.lookup USER_PROGRAM_PARAM
        (split_by_criteria hp SAGEMAKER_HYPERPARAMETERS SAGEMAKER_PREF).included = some u →
      List.lookup SUBMIT_DIR_PARAM
        (split_by_criteria hp SAGEMAKER_HYPERPARAMETERS SAGEMAKER_PREF).included = none →
      trainingEnvInit env0 n g rc idc hp
        = (.error (.keyError SUBMIT_DIR_PARAM),
           setEnv (setEnv (setEnv env0 JOB_NAME_ENV js) CURRENT_HOST_ENV chs)
             REGION_NAME_ENV rs)) := by
  refine ⟨fun h1 => ?_, fun v h1 h2 => ?_, fun v w h1 h2 h3 => ?_,
    fun v w r h1 h2 h3 h4 => ?_, fun chs w rs js h1 h2 h3 h4 h5 => ?_,
    fun chs w rs js u h1 h2 h3 h4 h5 h6 => ?_⟩
  · simp [trainingEnvInit, h1]
  · simp [trainingEnvInit, h1, h2]
  · simp [trainingEnvInit, h1, h2, h3]
  · simp [trainingEnvInit, h1, h2, h3, h4]
  · simp [trainingEnvInit, h1, h2, h3, h4, h5]
  · simp [trainingEnvInit, h1, h2, h3, h4, h5, h6]

/-- Witness for C2: a resource config with a current host but no `hosts`
key fails with the `hosts` key error and leaves the (empty) environment
unchanged. -/
theorem c2_witness :
    trainingEnvInit emptyEnv 4 .failed rcNoHosts [] []
      = (.error (.keyError "hosts"), emptyEnv) := by
  have h := c2_missing_key_all_or_nothing emptyEnv 4 .failed rcNoHosts [] []
  exact h.2.1 (JsonVal.str "algo-1") rfl rfl

/-- Counterexample for C2 as stated: with region and job name present but
the user-program hyperparameter missing, construction fails with a
Missing-Key error, yet the job-name environment variable has been written
into the previously empty process environment — the failed construction
did change observable state. -/
theorem c2_counterexample :
    initErrOf (trainingEnvInit emptyEnv 4 .failed rcFull [] hpNoProgram)
      = some (.keyError "sagemaker_program") ∧
    (trainingEnvInit emptyEnv 4 .failed rcFull [] hpNoProgram).2 JOB_NAME_ENV
      = some "job" ∧
    emptyEnv JOB_NAME_ENV = none :=
  ⟨rfl, rfl, rfl⟩

/-- C3: a successful training construction writes exactly three
environment variables — the job name and region name taken from the
platform hyperparameters and the current host taken from the resource
config — and every other variable keeps its prior value. -/
theorem c3_env_writes (env0 : EnvMap) (n : Nat) (g : ToolResult)
    (rc idc hp : List (String × JsonVal)) (te : TrainingEnv) (envF : EnvMap)
    (h : trainingEnvInit env0 n g rc idc hp = (.ok te, envF)) :
    ∃ chs js rs,
      List.lookup "current_host" rc = some (.str chs) ∧
      List.lookup JOB_NAME_PARAM
        (split_by_criteria hp SAGEMAKER_HYPERPARAMETERS SAGEMAKER_PREF).included
        = some (.str js) ∧
      List.lookup REGION_NAME_PARAM
        (split_by_criteria hp SAGEMAKER_HYPERPARAMETERS SAGEMAKER_PREF).included
        = some (.str rs) ∧
      envF JOB_NAME_ENV = some js ∧
      envF CURRENT_HOST_ENV = some chs ∧
      envF REGION_NAME_ENV = some rs ∧
      (∀ k, ¬(k = JOB_NAME_ENV) → ¬(k = CURRENT_HOST_ENV) → ¬(k = REGION_NAME_ENV) →
        envF k = env0 k) := by
  obtain ⟨chs, js, rs, h1, h2, h3, _, _, _, _, henv⟩ :=
    trainingEnvInit_ok_spec env0 n g rc idc hp te envF h
  subst henv
  have dJR : ¬(JOB_NAME_ENV = REGION_NAME_ENV) := by decide
  have dJC : ¬(JOB_NAME_ENV = CURRENT_HOST_ENV) := by decide
  have dCR : ¬(CURRENT_HOST_ENV = REGION_NAME_ENV) := by decide
  refine ⟨chs, js, rs, h1, h2, h3, ?_, ?_, ?_, ?_⟩
  · simp [setEnv, dJR, dJC]
  · simp [setEnv, dCR]
  · simp [setEnv]
  · intro k hk1 hk2 hk3
    simp [setEnv, hk1, hk2, hk3]

/-- Witness for C3 on a concrete successful construction over the empty
environment. -/
theorem c3_witness :
    ∃ chs js rs,
      List.lookup "current_host" rcFull = some (JsonVal.str chs) ∧
      List.lookup JOB_NAME_PARAM
        (split_by_criteria hpFull SAGEMAKER_HYPERPARAMETERS SAGEMAKER_PREF).included
        = some (JsonVal.str js) ∧
      List.lookup REGION_NAME_PARAM
        (split_by_criteria hpFull SAGEMAKER_HYPERPARAMETERS SAGEMAKER_PREF).included
        = some (JsonVal.str rs) ∧
      (trainingEnvInit emptyEnv 4 .failed rcFull [] hpFull).2 JOB_NAME_ENV = some js ∧
      (trainingEnvInit emptyEnv 4 .failed rcFull [] hpFull).2 CURRENT_HOST_ENV = some chs ∧
      (trainingEnvInit emptyEnv 4 .failed rcFull [] hpFull).2 REGION_NAME_ENV = some rs ∧
      (∀ k, ¬(k = JOB_NAME_ENV) → ¬(k = CURRENT_HOST_ENV) → ¬(k = REGION_NAME_ENV) →
        (trainingEnvInit emptyEnv 4 .failed rcFull [] hpFull).2 k = emptyEnv k) := by
  obtain ⟨chs, js, rs, h1, h2, h3, h4, h5, h6, h7⟩ :=
    c3_env_writes emptyEnv 4 .failed rcFull [] hpFull _ _ rfl
  exact ⟨chs, js, rs, h1, h2, h3, h4, h5, h6, h7⟩

/-- C4: splitting by the reserved-key set and the platform name prefix
partitions the mapping — an entry lands in the included half exactly when
its key is in the key set or starts with the prefix, in the excluded half
exactly otherwise; the two halves are disjoint and jointly exhaust the
mapping; and the excluded half of the hyperparameters split is exactly
what the training snapshot exposes as `hyperparameters`. -/
theorem c4_split_hyperparameters (d : List (String × JsonVal)) (keys : List String)
    (p : String) :
    (∀ kv, kv ∈ (split_by_criteria d keys p).included ↔
      kv ∈ d ∧ (kv.1 ∈ keys ∨ strStartsWith kv.1 p = true)) ∧
    (∀ kv, kv ∈ (split_by_criteria d keys p).excluded ↔
      kv ∈ d ∧ ¬(kv.1 ∈ keys ∨ strStartsWith kv.1 p = true)) ∧
    (∀ kv, ¬(kv ∈ (split_by_criteria d keys p).included ∧
      kv ∈ (split_by_criteria d keys p).excluded)) ∧
    (∀ kv, kv ∈ d ↔ (kv ∈ (split_by_criteria d keys p).included ∨
      kv ∈ (split_by_criteria d keys p).excluded)) ∧
    (∀ env0 n g rc idc te envF,
      trainingEnvInit env0 n g rc idc d = (.ok te, envF) →
      te.hyperparameters
        = (split_by_criteria d SAGEMAKER_HYPERPARAMETERS SAGEMAKER_PREF).excluded) := by
  have hmem : ∀ kv : String × JsonVal,
      keyIncluded keys p kv.1 = true ↔ (kv.1 ∈ keys ∨ strStartsWith kv.1 p = true) := by
    intro kv
    simp [keyIncluded, List.elem_iff]
  refine ⟨?_, ?_, ?_, ?_, ?_⟩
  · intro kv
    simp [split_by_criteria, List.mem_filter, hmem kv]
  · intro kv
    constructor
    · intro hkv
      rw [split_by_criteria] at hkv
      simp only [List.mem_filter] at hkv
      refine ⟨hkv.1, fun hcontra => ?_⟩
      rw [(hmem kv).mpr hcontra] at hkv
      exact absurd hkv.2 (by simp)
    · intro hkv
      rw [split_by_criteria]
      simp only [List.mem_filter]
      refine ⟨hkv.1, ?_⟩
      cases hc : keyIncluded keys p kv.1
      · rfl
      · exact absurd ((hmem kv).mp hc) hkv.2
  · intro kv hkv
    obtain ⟨hi, he⟩ := hkv
    simp [split_by_criteria, List.mem_filter] at hi he
    rw [hi.2] at he
    exact absurd he.2 (by simp)
  · intro kv
    constructor
    · intro hkv
      by_cases hc : keyIncluded keys p kv.1
      · exact Or.inl (by simp [split_by_criteria, List.mem_filter, hkv, hc])
      · exact Or.inr (by simp [split_by_criteria, List.mem_filter, hkv, hc])
    · intro hkv
      rcases hkv with hkv | hkv <;>
        (simp [split_by_criteria, List.mem_filter] at hkv; exact hkv.1)
  · intro env0 n g rc idc te envF h
    obtain ⟨_, _, _, _, _, _, _, hhyp, _, _, _⟩ :=
      trainingEnvInit_ok_spec env0 n g rc idc d te envF h
    exact hhyp

/-- Witness for C4: the splitting example from the spec, and the
`hyperparameters` of the training snapshot on a concrete successful
construction. -/
theorem c4_witness :
    (split_by_criteria [("sagemaker_job_name", JsonVal.str "j"), ("lr", JsonVal.num 1)]
      SAGEMAKER_HYPERPARAMETERS SAGEMAKER_PREF).included
      = [("sagemaker_job_name", JsonVal.str "j")] ∧
    (split_by_criteria [("sagemaker_job_name", JsonVal.str "j"), ("lr", JsonVal.num 1)]
      SAGEMAKER_HYPERPARAMETERS SAGEMAKER_PREF).excluded = [("lr", JsonVal.num 1)] ∧
    ∃ te envF, trainingEnvInit emptyEnv 4 .failed rcFull [] hpFull = (.ok te, envF) ∧
      te.hyperparameters
        = (split_by_criteria hpFull SAGEMAKER_HYPERPARAMETERS SAGEMAKER_PREF).excluded := by
  refine ⟨rfl, rfl, _, _, rfl, ?_⟩
  exact (c4_split_hyperparameters hpFull SAGEMAKER_HYPERPARAMETERS SAGEMAKER_PREF).2.2.2.2
    emptyEnv 4 .failed rcFull [] _ _ rfl

/-- C8 (amended): the channel map of the training snapshot has exactly the
channel names of the input data config as its keys and sends each channel
`c` to `os.path.join(<input-data-dir>, c)`; when `c` does not begin with
a path separator this is the path `<input-data-dir>/c`, while a channel
name beginning with `/` yields `c` itself (join semantics).
`channel_path` is a pure function of the channel name. -/
theorem c8_channel_map (env0 : EnvMap) (n : Nat) (g : ToolResult)
    (rc idc hp : List (String × JsonVal)) (te : TrainingEnv) (envF : EnvMap)
    (h : trainingEnvInit env0 n g rc idc hp = (.ok te, envF)) :
    te.channel_input_dirs = idc.map (fun kv => (kv.1, channel_path env0 kv.1)) ∧
    te.channel_input_dirs.map Prod.fst = idc.map Prod.fst ∧
    (∀ c, strStartsWith c "/" = false →
      channel_path env0 c = input_data_dir env0 ++ "/" ++ c) := by
  obtain ⟨_, _, _, _, _, _, _, _, _, hchan, _⟩ :=
    trainingEnvInit_ok_spec env0 n g rc idc hp te envF h
  refine ⟨hchan, ?_, fun c hc => channel_path_textual env0 c hc⟩
  rw [hchan]
  simp [List.map_map, Function.comp]

/-- Witness for C8 on a concrete construction with channel `train`. -/
theorem c8_witness :
    channelDirsOf (trainingEnvInit emptyEnv 4 .failed rcFull
      [("train", JsonVal.obj [])] hpFull) = some [("train", "/opt/ml/input/data/train")] ∧
    channel_path emptyEnv "train" = input_data_dir emptyEnv ++ "/" ++ "train" := by
  refine ⟨rfl, ?_⟩
  have h := c8_channel_map emptyEnv 4 .failed rcFull [("train", JsonVal.obj [])] hpFull
    _ _ rfl
  exact h.2.2 "train" rfl

/-- Counterexample for C8 as stated: a channel named `/x` is mapped to
`/x`, not to `<input-data-dir>//x` as the universal path formula of the
claim predicts. -/
theorem c8_counterexample :
    channelDirsOf (trainingEnvInit emptyEnv 4 .failed rcFull
      [("/x", JsonVal.obj [])] hpFull) = some [("/x", "/x")] ∧
    input_data_dir emptyEnv = "/opt/ml/input/data" ∧
    ¬("/x" = "/opt/ml/input/data" ++ "/" ++ "/x") :=
  ⟨rfl, rfl, by decide⟩

/-- C10 (amended): the `current_host` of a successful training snapshot is
the current-host entry of the resource config — the value the base snapshot read from
the current-host environment variable is discarded — and its
`output_data_dir` is `os.path.join(<output>/data, current_host)`, which
equals `<output>/data/<current_host>` whenever the host name does not
begin with a path separator. -/
theorem c10_current_host_override (env0 : EnvMap) (n : Nat) (g : ToolResult)
    (rc idc hp : List (String × JsonVal)) (te : TrainingEnv) (envF : EnvMap)
    (h : trainingEnvInit env0 n g rc idc hp = (.ok te, envF)) :
    ∃ chs,
      List.lookup "current_host" rc = some (JsonVal.str chs) ∧
      te.current_host = chs ∧
      (baseEnvInit env0 n g).current_host = env0 CURRENT_HOST_ENV ∧
      te.output_data_dir = posixJoin (output_data_dir_base env0) chs ∧
      (strStartsWith chs "/" = false →
        te.output_data_dir = output_data_dir_base env0 ++ "/" ++ chs) := by
  obtain ⟨chs, js, rs, h1, _, _, hch, _, hout, _, _⟩ :=
    trainingEnvInit_ok_spec env0 n g rc idc hp te envF h
  exact ⟨chs, h1, hch, rfl, hout,
    fun hc => hout.trans (output_data_dir_textual env0 chs hc)⟩

/-- Witness for C10: with the current-host environment variable set to
`env-host`, the snapshot still reports `algo-1` from the resource config. -/
theorem c10_witness :
    hostAndOutputOf (trainingEnvInit hostOnlyEnv 4 .failed rcFull [] hpFull)
      = some ("algo-1", "/opt/ml/output/data/algo-1") ∧
    hostOnlyEnv CURRENT_HOST_ENV = some "env-host" ∧
    (baseEnvInit hostOnlyEnv 4 .failed).current_host = hostOnlyEnv CURRENT_HOST_ENV := by
  refine ⟨rfl, rfl, ?_⟩
  obtain ⟨chs, h1, hch, hbase, hout, htext⟩ :=
    c10_current_host_override hostOnlyEnv 4 .failed rcFull [] hpFull _ _ rfl
  exact hbase

/-- Counterexample for C10 as stated: a current host named `/h` produces
`output_data_dir = /h`, not `<output>/data//h` as the universal path
formula of the claim predicts. -/
theorem c10_counterexample :
    hostAndOutputOf (trainingEnvInit emptyEnv 4 .failed rcSlashHost [] hpFull)
      = some ("/h", "/h") ∧
    output_data_dir_base emptyEnv = "/opt/ml/output/data" ∧
    ¬("/h" = "/opt/ml/output/data" ++ "/" ++ "/h") :=
  ⟨rfl, rfl, by decide⟩
